import Mathlib

/-!
Shallow embedding of the Quest Chronicles core (character_manager.py,
inventory_system.py, combat_system.py) for checking the specification's
claims.  Python integers are modelled by `Int`, Python `//` by `Int.fdiv`
(floor division), dictionaries holding the character / enemy / item
records by structures, and raised exceptions by `Except GameError`.
Console printing and file persistence are outside every claim and are not
modelled; `input()` choices and `random.random()` draws are passed as
explicit parameters.
-/

namespace Quest

/-- The custom exceptions of custom_exceptions.py that the modelled
operations can raise, plus Python's built-in `ValueError` / `KeyError`
(raised by `int(...)` / tuple unpacking in `parse_item_effect` and by a
failed dict lookup in `_resolve_item_info`). -/
inductive GameError where
  | invalidCharacterClass
  | characterDead
  | combatNotActive
  | invalidTarget
  | inventoryFull
  | itemNotFound
  | insufficientResources
  | invalidItemType
  | valueError
  | keyError
deriving DecidableEq, Repr

/-- An item record from game_data (keys: name, type, effect, cost).
`effect` is optional because the code guards some accesses with
`"effect" in info`. -/
structure Item where
  name : String
  itype : String
  effect : Option String
  cost : Int
deriving DecidableEq, Repr

/-- `item_data` arguments "may be either a single item dict OR a dict of
all items {item_id: item_info}" (inventory_system.py,
`_resolve_item_info`).  A table is an association list keyed by item id. -/
inductive ItemData where
  | single (info : Item)
  | table (m : List (String × Item))
deriving DecidableEq, Repr

/-- The character dictionary built by `create_character`
(character_manager.py).  `equipped_weapon` / `equipped_armor` are absent
(= `none`) until an equip operation sets them.  `extra` holds stats that
`apply_stat_effect` creates for names other than the four character
stats (the code does `character[stat_name] = 0` for unknown keys). -/
structure Character where
  name : String
  className : String
  level : Int
  health : Int
  max_health : Int
  strength : Int
  magic : Int
  experience : Int
  gold : Int
  inventory : List String
  active_quests : List String
  completed_quests : List String
  equipped_weapon : Option String := none
  equipped_armor : Option String := none
  extra : List (String × Int) := []
deriving DecidableEq, Repr

/-- The enemy dictionary built by `create_enemy` (combat_system.py). -/
structure Enemy where
  name : String
  etype : String
  health : Int
  max_health : Int
  strength : Int
  magic : Int
  xp_reward : Int
  gold_reward : Int
deriving DecidableEq, Repr

/-! ## character_manager.py -/

/-- `create_character(name, character_class)`: class-derived base stats;
raises `InvalidCharacterClassError` for an unknown class. -/
def create_character (name className : String) : Except GameError Character :=
  let base : Option (Int × Int × Int) :=
    if className = "Warrior" then some (120, 15, 5)
    else if className = "Mage" then some (80, 8, 20)
    else if className = "Rogue" then some (90, 12, 10)
    else if className = "Cleric" then some (100, 10, 15)
    else none
  match base with
  | none => .error .invalidCharacterClass
  | some (h, s, m) =>
      .ok { name := name, className := className, level := 1,
            health := h, max_health := h, strength := s, magic := m,
            experience := 0, gold := 100,
            inventory := [], active_quests := [], completed_quests := [] }

/-- One iteration of the `while` body in `gain_experience`: subtract the
threshold, bump level / max_health / strength / magic, restore health. -/
def levelUpStep (c : Character) : Character :=
  { c with experience := c.experience - c.level * 100,
           level := c.level + 1,
           max_health := c.max_health + 10,
           strength := c.strength + 2,
           magic := c.magic + 2,
           health := c.max_health + 10 }

/-- The `while character["experience"] >= character["level"] * 100` loop of
`gain_experience`, also returning whether the body ran at least once.
Termination: while `level ≤ 0` the measure `(1 - level).toNat` drops by 1
each iteration; once `level ≥ 1` the guard forces `experience ≥ 100` and
the body strictly decreases `experience.toNat`. -/
def levelUpLoop (c : Character) (leveled : Bool) : Character × Bool :=
  if c.level * 100 ≤ c.experience then
    levelUpLoop (levelUpStep c) true
  else
    (c, leveled)
termination_by ((1 - c.level).toNat, c.experience.toNat)
decreasing_by
  simp only [levelUpStep]
  rcases le_or_lt c.level 0 with hl | hl
  · apply Prod.Lex.left
    omega
  · have _h1 : 1 ≤ c.level := hl
    have _h100 : (100 : Int) ≤ c.experience := by nlinarith
    have _hlt : c.experience - c.level * 100 < c.experience := by nlinarith
    have : (1 - (c.level + 1)).toNat = (1 - c.level).toNat := by omega
    rw [this]
    apply Prod.Lex.right
    omega

/-- `gain_experience(character, xp_amount)` (character_manager.py):
`CharacterDeadError` when `health ≤ 0`, otherwise add the XP and run the
cascading level-up loop; returns the updated character and whether at
least one level-up occurred. -/
def gain_experience (c : Character) (xp_amount : Int) :
    Except GameError (Character × Bool) :=
  if c.health ≤ 0 then .error .characterDead
  else .ok (levelUpLoop { c with experience := c.experience + xp_amount } false)

/-- `heal_character(character, amount)`: `ValueError` on a negative
amount; otherwise raise health capped at `max_health` and return the
actual amount restored. -/
def heal_character (c : Character) (amount : Int) :
    Except GameError (Character × Int) :=
  if amount < 0 then .error .valueError
  else
    let old_health := c.health
    let c' := { c with health := min (c.health + amount) c.max_health }
    .ok (c', c'.health - old_health)

/-- `is_character_dead(character)`: health 0 or below. -/
def is_character_dead (c : Character) : Bool :=
  c.health ≤ 0

/-- `revive_character(character)`: no-op on a living character, otherwise
set health to `max_health // 2`. -/
def revive_character (c : Character) : Character × Bool :=
  if ¬ is_character_dead c then (c, false)
  else ({ c with health := c.max_health.fdiv 2 }, true)

/-! ## inventory_system.py -/

/-- `MAX_INVENTORY_SIZE = 20`. -/
def MAX_INVENTORY_SIZE : Nat := 20

/-- `_resolve_item_info(item_id, item_data)`: a single item dict (it has a
"type" key) is returned as is; a table is indexed by `item_id`, a missing
key raising Python's `KeyError`. -/
def resolve_item_info (item_id : String) (item_data : ItemData) :
    Except GameError Item :=
  match item_data with
  | .single info => .ok info
  | .table m =>
      match m.lookup item_id with
      | some info => .ok info
      | none => .error .keyError

/-- The digits of a Python `int(...)` literal, most significant first;
`none` when the list is empty or holds a non-digit. -/
def digitsToNat : List Char → Option Nat
  | [] => none
  | l => l.foldl
      (fun acc ch =>
        acc.bind fun n => if ch.isDigit then some (10 * n + (ch.toNat - 48)) else none)
      (some 0)

/-- Python `int(value)` on the strings that occur as effect values:
surrounding whitespace stripped, an optional single `+`/`-` sign, then a
nonempty run of decimal digits. -/
def parsePyInt (l : List Char) : Option Int :=
  let t := ((l.dropWhile Char.isWhitespace).reverse.dropWhile Char.isWhitespace).reverse
  match t with
  | '-' :: rest => (digitsToNat rest).map fun n => -(n : Int)
  | '+' :: rest => (digitsToNat rest).map fun n => (n : Int)
  | rest => (digitsToNat rest).map fun n => (n : Int)

/-- Split a character list at its first `:`; `none` when there is no
colon (then Python's 2-tuple unpacking of `split(":", 1)` raises
`ValueError`). -/
def splitAtColon : List Char → Option (List Char × List Char)
  | [] => none
  | ch :: rest =>
      if ch = ':' then some ([], rest)
      else (splitAtColon rest).map fun p => (ch :: p.1, p.2)

/-- `parse_item_effect(effect_string)`: split on the first `:` into the
stat name and `int(value)`; `none` models the `ValueError` Python raises
on a malformed string. -/
def parse_item_effect (s : String) : Option (String × Int) :=
  (splitAtColon s.toList).bind fun p =>
    (parsePyInt p.2).map fun v => (String.mk p.1, v)

/-- `apply_stat_effect(character, stat_name, value)`: add `value` to the
named stat (creating unknown stats at 0 first); only when the stat being
changed is `health` is health re-clamped at `max_health`. -/
def apply_stat_effect (c : Character) (stat_name : String) (value : Int) :
    Character :=
  if stat_name = "health" then
    let h := c.health + value
    { c with health := if c.max_health < h then c.max_health else h }
  else if stat_name = "max_health" then
    { c with max_health := c.max_health + value }
  else if stat_name = "strength" then
    { c with strength := c.strength + value }
  else if stat_name = "magic" then
    { c with magic := c.magic + value }
  else
    let old := (c.extra.lookup stat_name).getD 0
    { c with extra := (stat_name, old + value) ::
        c.extra.filter fun p => p.1 ≠ stat_name }

/-- `add_item_to_inventory(character, item_id)`: `InventoryFullError` at
capacity, otherwise append. -/
def add_item_to_inventory (c : Character) (item_id : String) :
    Except GameError (Character × Bool) :=
  if MAX_INVENTORY_SIZE ≤ c.inventory.length then .error .inventoryFull
  else .ok ({ c with inventory := c.inventory ++ [item_id] }, true)

/-- `remove_item_from_inventory(character, item_id)`: `ItemNotFoundError`
when absent, otherwise remove the first occurrence. -/
def remove_item_from_inventory (c : Character) (item_id : String) :
    Except GameError (Character × Bool) :=
  if item_id ∈ c.inventory then
    .ok ({ c with inventory := c.inventory.erase item_id }, true)
  else .error .itemNotFound

/-- `get_inventory_space_remaining(character)` as the (possibly negative)
Python difference `MAX_INVENTORY_SIZE - len(inventory)`. -/
def get_inventory_space_remaining (c : Character) : Int :=
  (MAX_INVENTORY_SIZE : Int) - c.inventory.length

/-- `use_item(character, item_id, item_data)`: consumables only; parses
and applies the effect (`info["effect"]` raising `KeyError` when the key
is missing), then removes one instance. -/
def use_item (c : Character) (item_id : String) (item_data : ItemData) :
    Except GameError Character :=
  if item_id ∉ c.inventory then .error .itemNotFound
  else do
    let info ← resolve_item_info item_id item_data
    if info.itype ≠ "consumable" then .error .invalidItemType
    else
      match info.effect with
      | none => .error .keyError
      | some e =>
          match parse_item_effect e with
          | none => .error .valueError
          | some (stat, v) =>
              let c' := apply_stat_effect c stat v
              .ok { c' with inventory := c'.inventory.erase item_id }

/-- The unequip-the-old-item step shared by `equip_weapon` and
`equip_armor`: the old item's stat effect is reversed only when
`item_data` is a table containing a record for it; the old item is
returned to inventory in either case.  Returns `none` for the
`ValueError` of `parse_item_effect` on a malformed old effect. -/
def returnOldEquipped (c : Character) (old_id : String) (item_data : ItemData) :
    Option Character :=
  let withReversed : Option Character :=
    match item_data with
    | .single _ => some c
    | .table m =>
        match m.lookup old_id with
        | none => some c
        | some old_info =>
            match old_info.effect with
            | none => some c
            | some e =>
                (parse_item_effect e).map fun p => apply_stat_effect c p.1 (-p.2)
  withReversed.map fun c' => { c' with inventory := c'.inventory ++ [old_id] }

/-- `equip_weapon(character, item_id, item_data)`: membership and type
checks, unequip of any current weapon (Python's `if old_weapon_id:` is
false for `None` and for the empty string), then the new weapon's effect
is applied and it moves from inventory into the slot. -/
def equip_weapon (c : Character) (item_id : String) (item_data : ItemData) :
    Except GameError Character :=
  if item_id ∉ c.inventory then .error .itemNotFound
  else do
    let info ← resolve_item_info item_id item_data
    if info.itype ≠ "weapon" then .error .invalidItemType
    else
      let afterOld : Option Character :=
        match c.equipped_weapon with
        | none => some c
        | some old_id =>
            if old_id = "" then some c
            else returnOldEquipped c old_id item_data
      match afterOld with
      | none => .error .valueError
      | some c1 =>
          let afterNew : Option Character :=
            match info.effect with
            | none => some c1
            | some e => (parse_item_effect e).map fun p =>
                apply_stat_effect c1 p.1 p.2
          match afterNew with
          | none => .error .valueError
          | some c2 =>
              .ok { c2 with equipped_weapon := some item_id,
                            inventory := c2.inventory.erase item_id }

/-- `equip_armor(character, item_id, item_data)`: same shape as
`equip_weapon` with the armor slot and the "armor" type check. -/
def equip_armor (c : Character) (item_id : String) (item_data : ItemData) :
    Except GameError Character :=
  if item_id ∉ c.inventory then .error .itemNotFound
  else do
    let info ← resolve_item_info item_id item_data
    if info.itype ≠ "armor" then .error .invalidItemType
    else
      let afterOld : Option Character :=
        match c.equipped_armor with
        | none => some c
        | some old_id =>
            if old_id = "" then some c
            else returnOldEquipped c old_id item_data
      match afterOld with
      | none => .error .valueError
      | some c1 =>
          let afterNew : Option Character :=
            match info.effect with
            | none => some c1
            | some e => (parse_item_effect e).map fun p =>
                apply_stat_effect c1 p.1 p.2
          match afterNew with
          | none => .error .valueError
          | some c2 =>
              .ok { c2 with equipped_armor := some item_id,
                            inventory := c2.inventory.erase item_id }

/-- `unequip_armor(character, item_data)`: `none`-like result when no
armor is equipped, `InventoryFullError` when there is no room; otherwise
the effect is reversed (when the armor's record, and its "effect" key,
can be found: a table without the equipped id falls back to treating the
whole argument as the item and finds no parseable effect) and the armor
returns to inventory.  Returns the unequipped item id. -/
def unequip_armor (c : Character) (item_data : ItemData) :
    Except GameError (Character × Option String) :=
  match c.equipped_armor with
  | none => .ok (c, none)
  | some equipped =>
      if equipped = "" then .ok (c, none)
      else if get_inventory_space_remaining c ≤ 0 then .error .inventoryFull
      else
        let infoOpt : Option Item :=
          match item_data with
          | .single info => some info
          | .table m => m.lookup equipped
        let reversed : Option Character :=
          match infoOpt with
          | none => some c
          | some info =>
              match info.effect with
              | none => some c
              | some e =>
                  (parse_item_effect e).map fun p =>
                    apply_stat_effect c p.1 (-p.2)
        match reversed with
        | none => .error .valueError
        | some c1 =>
            .ok ({ c1 with inventory := c1.inventory ++ [equipped],
                           equipped_armor := none }, some equipped)

/-- `unequip_weapon(character, item_data)`: same shape as `unequip_armor`
with the weapon slot. -/
def unequip_weapon (c : Character) (item_data : ItemData) :
    Except GameError (Character × Option String) :=
  match c.equipped_weapon with
  | none => .ok (c, none)
  | some equipped =>
      if equipped = "" then .ok (c, none)
      else if get_inventory_space_remaining c ≤ 0 then .error .inventoryFull
      else
        let infoOpt : Option Item :=
          match item_data with
          | .single info => some info
          | .table m => m.lookup equipped
        let reversed : Option Character :=
          match infoOpt with
          | none => some c
          | some info =>
              match info.effect with
              | none => some c
              | some e =>
                  (parse_item_effect e).map fun p =>
                    apply_stat_effect c p.1 (-p.2)
        match reversed with
        | none => .error .valueError
        | some c1 =>
            .ok ({ c1 with inventory := c1.inventory ++ [equipped],
                           equipped_weapon := none }, some equipped)

/-- `purchase_item(character, item_id, item_data)`: the gold check comes
before the capacity check; on success, gold is reduced by the cost and
the item appended. -/
def purchase_item (c : Character) (item_id : String) (item_data : ItemData) :
    Except GameError (Character × Bool) :=
  do
    let info ← resolve_item_info item_id item_data
    if c.gold < info.cost then .error .insufficientResources
    else if MAX_INVENTORY_SIZE ≤ c.inventory.length then .error .inventoryFull
    else .ok ({ c with gold := c.gold - info.cost,
                       inventory := c.inventory ++ [item_id] }, true)

/-- `sell_item(character, item_id, item_data)`: remove one instance and
credit `cost // 2` gold, returning the amount credited. -/
def sell_item (c : Character) (item_id : String) (item_data : ItemData) :
    Except GameError (Character × Int) :=
  if item_id ∉ c.inventory then .error .itemNotFound
  else do
    let info ← resolve_item_info item_id item_data
    let gold_gained := info.cost.fdiv 2
    .ok ({ c with inventory := c.inventory.erase item_id,
                  gold := c.gold + gold_gained }, gold_gained)

/-! ## combat_system.py -/

/-- `create_enemy(enemy_type)`: fixed templates keyed by the lowercased
type, `InvalidTargetError` otherwise. -/
def create_enemy (enemy_type : String) : Except GameError Enemy :=
  let key := String.mk (enemy_type.toList.map Char.toLower)
  if key = "goblin" then
    .ok { name := "Goblin", etype := "goblin", health := 50, max_health := 50,
          strength := 8, magic := 2, xp_reward := 25, gold_reward := 10 }
  else if key = "orc" then
    .ok { name := "Orc", etype := "orc", health := 80, max_health := 80,
          strength := 12, magic := 5, xp_reward := 50, gold_reward := 25 }
  else if key = "dragon" then
    .ok { name := "Dragon", etype := "dragon", health := 200, max_health := 200,
          strength := 25, magic := 15, xp_reward := 200, gold_reward := 100 }
  else .error .invalidTarget

/-- The `battle_result` dictionary of `SimpleBattle`.  The winner is a
string ("player" / "enemy" / "none") or Python `None`. -/
structure BattleResult where
  winner : Option String
  xp_gained : Int
  gold_gained : Int
deriving DecidableEq, Repr

/-- The state of a `SimpleBattle` object: the two combatants plus
`combat_active`, `turn_counter` and `battle_result` as set by
`__init__`. -/
structure Battle where
  character : Character
  enemy : Enemy
  combat_active : Bool := false
  turn_counter : Int := 0
  battle_result : Option BattleResult := none
deriving DecidableEq, Repr

/-- `SimpleBattle.__init__(character, enemy)`. -/
def mkBattle (c : Character) (e : Enemy) : Battle :=
  { character := c, enemy := e }

/-- `SimpleBattle.calculate_damage(attacker, defender)` on the two
`strength` fields it reads: `attacker["strength"] -
(defender["strength"] // 4)` with a minimum of 1. -/
def calculate_damage (attacker_strength defender_strength : Int) : Int :=
  let damage_amount := attacker_strength - defender_strength.fdiv 4
  if damage_amount < 1 then 1 else damage_amount

/-- Which combatant an `apply_damage` call targets. -/
inductive Target where
  | character
  | enemy
deriving DecidableEq, Repr

/-- `SimpleBattle.check_battle_end()`: clears `combat_active` and names
the winner when either side's health is 0 or below. -/
def check_battle_end (b : Battle) : Battle × Option String :=
  if b.character.health ≤ 0 then ({ b with combat_active := false }, some "enemy")
  else if b.enemy.health ≤ 0 then ({ b with combat_active := false }, some "player")
  else (b, none)

/-- `SimpleBattle.apply_damage(target, damage)`: subtract, clamp at 0,
then end combat if `check_battle_end` reports a winner. -/
def apply_damage (b : Battle) (t : Target) (damage : Int) : Battle :=
  let b1 :=
    match t with
    | .character =>
        let h := b.character.health - damage
        { b with character := { b.character with health := if h < 0 then 0 else h } }
    | .enemy =>
        let h := b.enemy.health - damage
        { b with enemy := { b.enemy with health := if h < 0 then 0 else h } }
  let p := check_battle_end b1
  if p.2.isSome then { p.1 with combat_active := false } else p.1

/-- `SimpleBattle.start_battle()`: `CharacterDeadError` for a dead
character; otherwise activate combat, set `turn_counter = 1` and install
the initial (no winner, zero rewards) `battle_result`, which it returns. -/
def start_battle (b : Battle) : Except GameError (Battle × BattleResult) :=
  if is_character_dead b.character then .error .characterDead
  else
    let r : BattleResult := { winner := none, xp_gained := 0, gold_gained := 0 }
    .ok ({ b with combat_active := true, turn_counter := 1,
                  battle_result := some r }, r)

/-- `SimpleBattle.start()`: convenience wrapper for `start_battle`. -/
def start (b : Battle) : Except GameError (Battle × BattleResult) :=
  start_battle b

/-- `warrior_power_strike(character, enemy)`: double strength damage,
enemy health clamped at 0. -/
def warrior_power_strike (c : Character) (e : Enemy) : Character × Enemy :=
  let damage := c.strength * 2
  let h := e.health - damage
  (c, { e with health := if h < 0 then 0 else h })

/-- `mage_fireball(character, enemy)`: double magic damage. -/
def mage_fireball (c : Character) (e : Enemy) : Character × Enemy :=
  let damage := c.magic * 2
  let h := e.health - damage
  (c, { e with health := if h < 0 then 0 else h })

/-- `rogue_critical_strike(character, enemy)`: triple strength damage on
a successful 50% roll (passed in as `crit`), plain strength otherwise. -/
def rogue_critical_strike (c : Character) (e : Enemy) (crit : Bool) :
    Character × Enemy :=
  let damage := if crit then c.strength * 3 else c.strength
  let h := e.health - damage
  (c, { e with health := if h < 0 then 0 else h })

/-- `cleric_heal(character)`: restore 30 HP capped at `max_health`. -/
def cleric_heal (c : Character) : Character :=
  { c with health := min (c.health + 30) c.max_health }

/-- `use_special_ability(character, enemy)`: dispatch on the character's
class; an unknown class is a no-op.  The rogue's random draw is the
`crit` parameter. -/
def use_special_ability (c : Character) (e : Enemy) (crit : Bool) :
    Character × Enemy :=
  if c.className = "Warrior" then warrior_power_strike c e
  else if c.className = "Mage" then mage_fireball c e
  else if c.className = "Rogue" then rogue_critical_strike c e crit
  else if c.className = "Cleric" then (cleric_heal c, e)
  else (c, e)

/-- `get_victory_rewards(enemy)` as the (xp, gold) pair. -/
def get_victory_rewards (e : Enemy) : Int × Int :=
  (e.xp_reward, e.gold_reward)

/-- `SimpleBattle.attempt_escape()`: `CombatNotActiveError` outside
battle; the 50% draw is the `roll` parameter; success deactivates
combat. -/
def attempt_escape (b : Battle) (roll : Bool) : Except GameError (Battle × Bool) :=
  if ¬ b.combat_active then .error .combatNotActive
  else if roll then .ok ({ b with combat_active := false }, true)
  else .ok (b, false)

/-- `SimpleBattle.player_turn()`: `CombatNotActiveError` outside battle.
The menu `input()` is the `choice` parameter; the rogue-crit and escape
draws are `crit` / `escapeRoll`.  Choice "1" applies the character's raw
`strength` as damage, "2" dispatches the special ability, "3" attempts
an escape (a success sets `battle_result` to winner "none" and returns
without bumping `turn_counter`); any other string wastes the turn.
Afterwards a battle-end check may install the victory result, and the
turn counter is bumped. -/
def player_turn (b : Battle) (choice : String) (crit escapeRoll : Bool) :
    Except GameError Battle :=
  if ¬ b.combat_active then .error .combatNotActive
  else if choice = "3" ∧ escapeRoll then
    .ok { b with combat_active := false,
                 battle_result := some { winner := some "none",
                                         xp_gained := 0, gold_gained := 0 } }
  else
    let b1 :=
      if choice = "1" then apply_damage b .enemy b.character.strength
      else if choice = "2" then
        let p := use_special_ability b.character b.enemy crit
        { b with character := p.1, enemy := p.2 }
      else b
    let p := check_battle_end b1
    let victory : BattleResult :=
      { winner := some "player", xp_gained := b1.enemy.xp_reward,
        gold_gained := b1.enemy.gold_reward }
    let b2 :=
      if p.2 = some "player" then { p.1 with battle_result := some victory }
      else p.1
    .ok { b2 with turn_counter := b2.turn_counter + 1 }

/-- `SimpleBattle.enemy_turn()`: `CombatNotActiveError` outside battle;
the enemy applies its raw `strength` as damage to the character, a
defeat check may install the loss result, and the turn counter is
bumped. -/
def enemy_turn (b : Battle) : Except GameError Battle :=
  if ¬ b.combat_active then .error .combatNotActive
  else
    let b1 := apply_damage b .character b.enemy.strength
    let p := check_battle_end b1
    let loss : BattleResult :=
      { winner := some "enemy", xp_gained := 0, gold_gained := 0 }
    let b2 :=
      if p.2 = some "enemy" then { p.1 with battle_result := some loss }
      else p.1
    .ok { b2 with turn_counter := b2.turn_counter + 1 }

/-! ## Derived operations and concrete inputs used in the theorems -/

/-- Fold `add_item_to_inventory` over a list of item ids, stopping at the
first failure. -/
def addAll (c : Character) (ids : List String) : Except GameError Character :=
  match ids with
  | [] => .ok c
  | i :: rest => (add_item_to_inventory c i).bind fun p => addAll p.1 rest

/-- The character produced by `create_character "Hero" "Warrior"`. -/
def heroW : Character :=
  { name := "Hero", className := "Warrior", level := 1, health := 120,
    max_health := 120, strength := 15, magic := 5, experience := 0,
    gold := 100, inventory := [], active_quests := [], completed_quests := [] }

/-- The goblin template of `create_enemy "goblin"`. -/
def goblinE : Enemy :=
  { name := "Goblin", etype := "goblin", health := 50, max_health := 50,
    strength := 8, magic := 2, xp_reward := 25, gold_reward := 10 }

/-- An armor item whose effect grants +10 max_health. -/
def leatherItem : Item :=
  { name := "Leather Armor", itype := "armor", effect := some "max_health:10",
    cost := 30 }

/-- A character wearing `leatherItem` at full health: its +10 max_health
bonus is included in `max_health = 110 = health`.  The character
invariant `0 ≤ health ≤ max_health` holds. -/
def armoredC : Character :=
  { heroW with health := 110, max_health := 110,
               equipped_armor := some "leather" }

/-- A weapon granting +5 strength. -/
def swordItem : Item :=
  { name := "Sword", itype := "weapon", effect := some "strength:5", cost := 50 }

/-- A weapon granting +3 strength. -/
def axeItem : Item :=
  { name := "Axe", itype := "weapon", effect := some "strength:3", cost := 40 }

/-- A character with `swordItem` equipped (its +5 included in
`strength = 20`) and an axe in inventory. -/
def dualW : Character :=
  { heroW with strength := 20, equipped_weapon := some "sword",
               inventory := ["axe"] }

/-- A dead character (health 0). -/
def deadC : Character :=
  { heroW with health := 0 }

/-- A consumable shop item costing 9 gold. -/
def potionItem : Item :=
  { name := "Health Potion", itype := "consumable", effect := some "health:20",
    cost := 9 }

/-- A broke character with a full (20-item) inventory. -/
def brokeFullC : Character :=
  { heroW with gold := 5, inventory := List.replicate 20 "potion" }

deriving instance DecidableEq for Except

/-! ## Helper lemmas -/

/-- Reduction of `Except.bind` on a success value. -/
theorem ok_bind {α β : Type} (a : α) (f : α → Except GameError β) :
    ((Except.ok a : Except GameError α).bind f) = f a := rfl

/-- Reduction of monadic bind (do-notation) on a success value. -/
theorem ok_bindM {α β : Type} (a : α) (f : α → Except GameError β) :
    ((Except.ok a : Except GameError α) >>= f) = f a := rfl

/-- Successive adds all succeed while the final length stays within
capacity, and they append in order. -/
theorem addAll_ok (c : Character) (ids : List String)
    (h : c.inventory.length + ids.length ≤ 20) :
    addAll c ids = .ok { c with inventory := c.inventory ++ ids } := by
  induction ids generalizing c with
  | nil => simp [addAll]
  | cons i rest ih =>
      have hlt : ¬ (MAX_INVENTORY_SIZE ≤ c.inventory.length) := by
        simp only [List.length_cons] at h
        simp only [MAX_INVENTORY_SIZE]
        omega
      simp only [addAll, add_item_to_inventory, if_neg hlt, ok_bind]
      rw [ih]
      · simp
      · simp only [List.length_cons] at h
        simp only [List.length_append, List.length_cons, List.length_nil]
        omega

/-! ## Claims -/

/-- C5: `add_item_to_inventory` succeeds (appending) while the inventory
length is below 20, fails with `InventoryFullError` at 20 or more, and —
starting from an empty inventory — the 20th add succeeds while the 21st
fails (the failing call producing no new state). -/
theorem c5_inventory_capacity :
    (∀ (c : Character) (i : String), c.inventory.length < 20 →
        add_item_to_inventory c i =
          .ok ({ c with inventory := c.inventory ++ [i] }, true)) ∧
    (∀ (c : Character) (i : String), 20 ≤ c.inventory.length →
        add_item_to_inventory c i = .error .inventoryFull) ∧
    (∀ c : Character, c.inventory = [] →
        ∃ c20 : Character,
          addAll c (List.replicate 20 "potion") = .ok c20 ∧
          c20.inventory.length = 20 ∧
          add_item_to_inventory c20 "potion" = .error .inventoryFull) := by
  refine ⟨?_, ?_, ?_⟩
  · intro c i hlen
    rw [add_item_to_inventory, if_neg (by simp [MAX_INVENTORY_SIZE]; omega)]
  · intro c i hlen
    rw [add_item_to_inventory, if_pos (by simpa [MAX_INVENTORY_SIZE] using hlen)]
  · intro c hc
    refine ⟨{ c with inventory := c.inventory ++ List.replicate 20 "potion" },
            addAll_ok c _ (by simp [hc]), by simp [hc],
            by rw [add_item_to_inventory, if_pos (by simp [hc, MAX_INVENTORY_SIZE])]⟩

/-- Witness for C5 at concrete inputs. -/
theorem c5_witness :
    add_item_to_inventory heroW "p" =
      .ok ({ heroW with inventory := heroW.inventory ++ ["p"] }, true) ∧
    add_item_to_inventory brokeFullC "p" = .error .inventoryFull ∧
    (∃ c20 : Character,
      addAll heroW (List.replicate 20 "potion") = .ok c20 ∧
      c20.inventory.length = 20 ∧
      add_item_to_inventory c20 "potion" = .error .inventoryFull) :=
  ⟨c5_inventory_capacity.1 heroW "p" (by decide),
   c5_inventory_capacity.2.1 brokeFullC "p" (by decide),
   c5_inventory_capacity.2.2 heroW rfl⟩

/-- C8: `heal_character` never raises `CharacterDeadError`, and on a
character with 0 health and a positive amount it succeeds, setting
health to `min amount max_health` and returning that value. -/
theorem c8_heal_character_revives :
    (∀ (c : Character) (amount : Int),
        heal_character c amount ≠ .error .characterDead) ∧
    (∀ (c : Character) (amount : Int), c.health = 0 → 0 < amount →
        heal_character c amount =
          .ok ({ c with health := min amount c.max_health },
               min amount c.max_health)) := by
  constructor
  · intro c amount
    unfold heal_character
    split_ifs <;> simp
  · intro c amount h0 hpos
    unfold heal_character
    rw [if_neg (by omega)]
    simp [h0]

/-- Witness for C8 at a concrete dead character. -/
theorem c8_witness :
    heal_character deadC 30 ≠ .error .characterDead ∧
    heal_character deadC 30 =
      .ok ({ deadC with health := min 30 deadC.max_health },
           min 30 deadC.max_health) :=
  ⟨c8_heal_character_revives.1 deadC 30,
   c8_heal_character_revives.2 deadC 30 rfl (by decide)⟩

/-- C9: `purchase_item` checks gold before capacity — with gold below
the cost and a full inventory it raises `InsufficientResourcesError`
(and the failing call produces no new state). -/
theorem c9_purchase_checks_gold_first :
    ∀ (c : Character) (item_id : String) (item_data : ItemData) (info : Item),
      resolve_item_info item_id item_data = .ok info →
      c.gold < info.cost → 20 ≤ c.inventory.length →
      purchase_item c item_id item_data = .error .insufficientResources := by
  intro c item_id item_data info hres hgold _hfull
  simp [purchase_item, hres, ok_bindM, hgold]

/-- Witness for C9: a broke character with a full inventory gets the
gold error, not the capacity error. -/
theorem c9_witness :
    purchase_item brokeFullC "potion" (.table [("potion", potionItem)]) =
      .error .insufficientResources :=
  c9_purchase_checks_gold_first brokeFullC "potion"
    (.table [("potion", potionItem)]) potionItem (by decide) (by decide)
    (by decide)

/-- C10: `create_character` yields, for the four valid classes, a level-1
character at full health with 0 XP, 100 gold and empty lists, and raises
`InvalidCharacterClassError` for every other class string. -/
theorem c10_create_character_classes :
    ∀ name : String,
      (∀ cls, cls ∈ ["Warrior", "Mage", "Rogue", "Cleric"] →
        ∃ c : Character, create_character name cls = .ok c ∧
          c.health = c.max_health ∧ c.level = 1 ∧ c.experience = 0 ∧
          c.gold = 100 ∧ c.inventory = [] ∧ c.active_quests = [] ∧
          c.completed_quests = []) ∧
      (∀ cls, cls ∉ ["Warrior", "Mage", "Rogue", "Cleric"] →
        create_character name cls = .error .invalidCharacterClass) := by
  intro name
  constructor
  · intro cls hcls
    simp only [List.mem_cons, List.not_mem_nil, or_false] at hcls
    rcases hcls with h | h | h | h <;> subst h <;>
      exact ⟨_, rfl, rfl, rfl, rfl, rfl, rfl, rfl, rfl⟩
  · intro cls hcls
    simp only [List.mem_cons, List.not_mem_nil, or_false, not_or] at hcls
    obtain ⟨h1, h2, h3, h4⟩ := hcls
    simp [create_character, h1, h2, h3, h4]

/-- Witness for C10: a valid and an invalid class at concrete inputs. -/
theorem c10_witness :
    create_character "Hero" "Fighter" = .error .invalidCharacterClass ∧
    ∃ c : Character, create_character "Hero" "Warrior" = .ok c ∧
      c.health = c.max_health ∧ c.level = 1 ∧ c.experience = 0 ∧
      c.gold = 100 ∧ c.inventory = [] ∧ c.active_quests = [] ∧
      c.completed_quests = [] :=
  ⟨(c10_create_character_classes "Hero").2 "Fighter" (by decide),
   (c10_create_character_classes "Hero").1 "Warrior" (by decide)⟩

/-- C6: `start_battle` (and its wrapper `start`) raises
`CharacterDeadError` exactly when the character's health is 0 or below,
and `gain_experience` raises it exactly when health is 0 or below; the
checks precede every state change, so an erroring call produces no new
state. -/
theorem c6_dead_character_preconditions :
    ∀ (b : Battle) (c : Character) (xp : Int),
      (start_battle b = .error .characterDead ↔ b.character.health ≤ 0) ∧
      start b = start_battle b ∧
      (gain_experience c xp = .error .characterDead ↔ c.health ≤ 0) := by
  intro b c xp
  refine ⟨?_, rfl, ?_⟩
  · by_cases hh : b.character.health ≤ 0 <;>
      simp [start_battle, is_character_dead, hh]
  · by_cases hh : c.health ≤ 0 <;> simp [gain_experience, hh]

/-- Witness for C6 at a concrete dead character. -/
theorem c6_witness :
    start_battle (mkBattle deadC goblinE) = .error .characterDead ∧
    gain_experience deadC 10 = .error .characterDead :=
  ⟨(c6_dead_character_preconditions (mkBattle deadC goblinE) deadC 10).1.mpr
     (by decide),
   (c6_dead_character_preconditions (mkBattle deadC goblinE) deadC 10).2.2.mpr
     (by decide)⟩

/-- C7: buying an affordable item (nonnegative cost, per the Item data
model) with room in the inventory and then selling it back leaves the
character with `g - c + c // 2 ≤ g` gold and the inventory at its prior
length. -/
theorem c7_purchase_then_sell :
    ∀ (c : Character) (item_id : String) (item_data : ItemData) (info : Item),
      resolve_item_info item_id item_data = .ok info →
      0 ≤ info.cost → info.cost ≤ c.gold → c.inventory.length < 20 →
      ∃ c1 c2 : Character,
        purchase_item c item_id item_data = .ok (c1, true) ∧
        sell_item c1 item_id item_data = .ok (c2, info.cost.fdiv 2) ∧
        c2.gold = c.gold - info.cost + info.cost.fdiv 2 ∧
        c2.gold ≤ c.gold ∧
        c2.inventory.length = c.inventory.length := by
  intro c item_id item_data info hres hc0 hcg hlen
  have hng : ¬ c.gold < info.cost := not_lt.mpr hcg
  have hnf : ¬ (MAX_INVENTORY_SIZE ≤ c.inventory.length) := by
    simp only [MAX_INVENTORY_SIZE]
    omega
  have hmem : item_id ∈ c.inventory ++ [item_id] := by simp
  let c1 : Character :=
    { c with gold := c.gold - info.cost, inventory := c.inventory ++ [item_id] }
  let c2 : Character :=
    { c with gold := c.gold - info.cost + info.cost.fdiv 2,
             inventory := (c.inventory ++ [item_id]).erase item_id }
  refine ⟨c1, c2, ?_, ?_, rfl, ?_, ?_⟩
  · simp [purchase_item, hres, ok_bindM, hng, hnf]
  · simp [sell_item, hres, ok_bindM, hmem]
  · have hdiv : info.cost.fdiv 2 ≤ info.cost := by
      rw [Int.fdiv_eq_ediv _ (by norm_num)]
      exact Int.ediv_le_self _ hc0
    simp only
    omega
  · simp [List.length_erase_of_mem hmem]

/-- Witness for C7 at concrete inputs: buy and resell a 9-gold potion. -/
theorem c7_witness :
    ∃ c1 c2 : Character,
      purchase_item heroW "potion" (.table [("potion", potionItem)]) =
        .ok (c1, true) ∧
      sell_item c1 "potion" (.table [("potion", potionItem)]) =
        .ok (c2, potionItem.cost.fdiv 2) ∧
      c2.gold = heroW.gold - potionItem.cost + potionItem.cost.fdiv 2 ∧
      c2.gold ≤ heroW.gold ∧
      c2.inventory.length = heroW.inventory.length :=
  c7_purchase_then_sell heroW "potion" (.table [("potion", potionItem)])
    potionItem (by decide) (by decide) (by decide) (by decide)

/-- C1 (code bug): the player's basic attack (choice "1") and the enemy's
attack apply the attacker's raw `strength` as damage, not
`calculate_damage`.  With a fresh Warrior (strength 15) against a goblin
(strength 8): the goblin loses 15 health where `calculate_damage` gives
`max(1, 15 - 8 // 4) = 13`, and the character loses 8 health where
`calculate_damage` gives `max(1, 8 - 15 // 4) = 5`. -/
theorem c1_turns_ignore_calculate_damage :
    create_character "Hero" "Warrior" = .ok heroW ∧
    create_enemy "goblin" = .ok goblinE ∧
    ((start_battle (mkBattle heroW goblinE)).bind fun p =>
        player_turn p.1 "1" false false).map (fun b => b.enemy.health) =
      .ok 35 ∧
    ((start_battle (mkBattle heroW goblinE)).bind fun p =>
        enemy_turn p.1).map (fun b => b.character.health) = .ok 112 ∧
    calculate_damage heroW.strength goblinE.strength = 13 ∧
    calculate_damage goblinE.strength heroW.strength = 5 ∧
    goblinE.health - 35 = 15 ∧ (15 : Int) ≠ 13 ∧
    heroW.health - 112 = 8 ∧ (8 : Int) ≠ 5 := by
  decide

/-- C2 (code bug): reversing an armor's `max_health` bonus on unequip
does not re-clamp health, breaking `0 ≤ health ≤ max_health`: a
character at 110/110 wearing +10 max_health armor ends at 110/100 after
`unequip_armor`. -/
theorem c2_unequip_armor_breaks_invariant :
    armoredC.health ≤ armoredC.max_health ∧
    (unequip_armor armoredC (.table [("leather", leatherItem)])).map
        (fun p => (p.1.health, p.1.max_health, p.2)) =
      .ok (110, 100, some "leather") ∧
    ¬ ((110 : Int) ≤ 100) := by
  decide

/-- C3 counterexample: granting 250 XP to a fresh level-1 character with
0 experience ends at level 2 with 150 experience — not, as claimed, at
level 3 with 50 (only the level-1 threshold of 100 is consumed; the
remaining 150 is below the level-2 threshold of 200). -/
theorem c3_counterexample_250xp :
    (gain_experience heroW 250).map (fun p => (p.1.level, p.1.experience)) =
      .ok (2, 150) ∧
    ¬ ((2 : Int) = 3 ∧ (150 : Int) = 50) := by
  constructor
  · simp [gain_experience, heroW, levelUpLoop, levelUpStep]
    rfl
  · decide

/-- C3 (amended): for every living character at level 1 with 0
experience, `gain_experience` of 250 consumes the 100 threshold once,
ending at level 2 with 150 experience, max_health +10, strength +2,
magic +2, health restored to the new max_health, and returns true. -/
theorem c3_gain_experience_250_cascade :
    ∀ c : Character, 0 < c.health → c.level = 1 → c.experience = 0 →
      gain_experience c 250 =
        .ok ({ c with experience := 150, level := 2,
                      max_health := c.max_health + 10,
                      strength := c.strength + 2, magic := c.magic + 2,
                      health := c.max_health + 10 }, true) := by
  intro c hh hl hx
  simp only [gain_experience]
  rw [if_neg (by omega)]
  rw [levelUpLoop]
  rw [if_pos (by simp [hl, hx])]
  rw [levelUpLoop]
  rw [if_neg (by simp [levelUpStep, hl, hx])]
  simp [levelUpStep, hl, hx]

/-- Witness for the amended C3 at the concrete fresh Warrior. -/
theorem c3_witness :
    gain_experience heroW 250 =
      .ok ({ heroW with experience := 150, level := 2,
                        max_health := heroW.max_health + 10,
                        strength := heroW.strength + 2,
                        magic := heroW.magic + 2,
                        health := heroW.max_health + 10 }, true) :=
  c3_gain_experience_250_cascade heroW (by decide) rfl rfl

/-- `apply_stat_effect` never touches the inventory. -/
theorem apply_stat_effect_inventory (c : Character) (s : String) (v : Int) :
    (apply_stat_effect c s v).inventory = c.inventory := by
  simp only [apply_stat_effect]
  split_ifs <;> rfl

/-- `apply_stat_effect` commutes with replacing the inventory. -/
theorem apply_stat_effect_set_inventory (c : Character) (l : List String)
    (s : String) (v : Int) :
    apply_stat_effect { c with inventory := l } s v =
      { apply_stat_effect c s v with inventory := l } := by
  simp only [apply_stat_effect]
  split_ifs <;> rfl

/-- C4 counterexample: with a +5-strength sword equipped (strength 20)
and a +3-strength axe in inventory, equipping the axe with `item_data`
given as the axe's own resolved record leaves strength 23 — the sword's
+5 bonus is not reversed (full reversal would give 20 − 5 + 3 = 18),
although the sword is still returned to inventory. -/
theorem c4_counterexample_single_record :
    dualW.equipped_weapon = some "sword" ∧
    (equip_weapon dualW "axe" (.single axeItem)).map
        (fun c => (c.strength, c.inventory, c.equipped_weapon)) =
      .ok (23, ["sword"], some "axe") ∧
    (23 : Int) ≠ 20 - 5 + 3 := by
  decide

/-- C4 (amended): when `item_data` is a full lookup table containing
both weapons' records, equipping a new weapon over an equipped one
returns the old weapon to inventory with its stat delta negated, applies
the new weapon's effect, puts the new weapon alone in the slot, and
leaves the inventory length unchanged.  (With a single resolved item
record the reversal is silently skipped, per the counterexample.) -/
theorem c4_equip_weapon_swap_with_lookup :
    ∀ (c : Character) (tbl : List (String × Item))
      (oldW newW oe ne os ns : String) (oldIt newIt : Item) (ov nv : Int),
      c.equipped_weapon = some oldW → oldW ≠ "" → newW ∈ c.inventory →
      tbl.lookup newW = some newIt → tbl.lookup oldW = some oldIt →
      newIt.itype = "weapon" →
      oldIt.effect = some oe → parse_item_effect oe = some (os, ov) →
      newIt.effect = some ne → parse_item_effect ne = some (ns, nv) →
      ∃ c' : Character,
        equip_weapon c newW (.table tbl) = .ok c' ∧
        c' = { apply_stat_effect (apply_stat_effect c os (-ov)) ns nv with
               inventory := (c.inventory ++ [oldW]).erase newW,
               equipped_weapon := some newW } ∧
        oldW ∈ c'.inventory ∧
        c'.inventory.length = c.inventory.length := by
  intro c tbl oldW newW oe ne os ns oldIt newIt ov nv
  intro hweq hne hmem htnew htold htype hoeff hopar hneff hnpar
  have hres : resolve_item_info newW (.table tbl) = .ok newIt := by
    simp [resolve_item_info, htnew]
  refine ⟨_, ?_, rfl, ?_, ?_⟩
  · simp only [equip_weapon, hres, ok_bindM, hmem, not_true_eq_false,
      if_false, htype, hweq, hne, returnOldEquipped, htold, hoeff, hopar,
      hneff, hnpar, Option.map_some, if_neg hne]
    rw [if_neg (by simp)]
    simp only [Option.map_some']
    rw [apply_stat_effect_set_inventory, apply_stat_effect_inventory]
  · show oldW ∈ (c.inventory ++ [oldW]).erase newW
    rw [List.erase_append_left _ hmem]
    simp
  · show ((c.inventory ++ [oldW]).erase newW).length = c.inventory.length
    have hm : newW ∈ c.inventory ++ [oldW] := List.mem_append_left _ hmem
    rw [List.length_erase_of_mem hm]
    simp

/-- Witness for the amended C4: swapping the sword for the axe with a
full lookup table reverses the sword's +5 and applies the axe's +3. -/
theorem c4_witness :
    ∃ c' : Character,
      equip_weapon dualW "axe"
          (.table [("sword", swordItem), ("axe", axeItem)]) = .ok c' ∧
      c' = { apply_stat_effect (apply_stat_effect dualW "strength" (-5))
               "strength" 3 with
             inventory := (dualW.inventory ++ ["sword"]).erase "axe",
             equipped_weapon := some "axe" } ∧
      "sword" ∈ c'.inventory ∧
      c'.inventory.length = dualW.inventory.length :=
  c4_equip_weapon_swap_with_lookup dualW
    [("sword", swordItem), ("axe", axeItem)] "sword" "axe"
    "strength:5" "strength:3" "strength" "strength" swordItem axeItem 5 3
    rfl (by decide) (by decide) (by decide) (by decide) rfl rfl (by decide)
    rfl (by decide)

end Quest
